import Mathlib

/-!
Shallow embedding of `src/main.py` of the saturn-node-monitoring repository
(a Prometheus metrics exporter for Saturn CDN nodes) and verification of the
specification claims about its field-projection / metric-assembly layer.

Conventions of the embedding:
* Python dicts used as records with required keys become Lean structures with
  total fields (the source accesses those keys unconditionally and assumes the
  upstream JSON always carries them).
* Python dicts used as maps with optional keys (the `biases` map, the
  `ttfbStats` sub-record) become association lists `List (String × Rat)`;
  `dict.get(k)` becomes `List.lookup`, and `dict[k]` raising `KeyError`
  becomes a `match` on `List.lookup` whose `none` branch mirrors the
  exception path of the source.
* Python truthiness of a possibly-absent dict (`if not d: ...`) is modelled
  exactly: for `ttfbStats : Option (List _)` the falsy values are `none` and
  `some []`; the `speedtest` value is a three-way sum
  (absent / present-but-falsy / populated).
* Numeric JSON values become `Rat` (the source does no arithmetic on them
  except counting health-check failures and the timestamp conversion).
* Fallible code paths (`KeyError` on the earnings / requirements records)
  return `Except String _`.
-/

namespace Saturn

/-- One emitted metric sample.  `info` carries the label/value dictionary of a
Prometheus info metric (`InfoMetricFamily.add_metric([], values)`), `num` a
gauge/counter sample with its ordered label values, and `str` the one gauge
whose value the source passes as a string (the version metric). -/
inductive Series where
  | info (kv : List (String × String))
  | num (labelValues : List String) (value : Rat)
  | str (labelValues : List String) (value : String)
deriving DecidableEq, Repr

/-- `node["geoloc"]` sub-record (all keys accessed unconditionally). -/
structure Geoloc where
  region : String
  city : String
  country : String
  countryCode : String
deriving DecidableEq, Repr

/-- `speedtest["server"]` sub-record. -/
structure SpeedtestServer where
  location : String
  country : String
deriving DecidableEq, Repr

/-- A populated `node["speedtest"]` sub-record, with the fields the source
reads (`isp`, `server`, `upload["bandwidth"]`, `download["bandwidth"]`,
`ping["latency"]`). -/
structure SpeedtestRec where
  isp : String
  server : SpeedtestServer
  uploadBandwidth : Rat
  downloadBandwidth : Rat
  pingLatency : Rat
deriving DecidableEq, Repr

/-- The value of `node.get("speedtest")` as the source distinguishes it:
`absent` is Python `None` (key missing), `empty` a present but falsy (empty)
dict, `full` a populated sub-record.  The source only ever tests truthiness
(`if speedtest:`), under which `absent` and `empty` coincide. -/
inductive SpeedtestField where
  | absent
  | empty
  | full (r : SpeedtestRec)
deriving DecidableEq, Repr

/-- One entry of the `HealthCheckFailures` list; the source reads `f["error"]`. -/
structure Failure where
  error : String
deriving DecidableEq, Repr

/-- `node["diskStats"]`. -/
structure DiskStats where
  totalDiskMB : Rat
  usedDiskMB : Rat
  availableDiskMB : Rat
deriving DecidableEq, Repr

/-- `node["memoryStats"]`. -/
structure MemoryStats where
  totalMemoryKB : Rat
  freeMemoryKB : Rat
  availableMemoryKB : Rat
deriving DecidableEq, Repr

/-- `node["cpuStats"]`; the source reads `numCPUs` and `loadAvgs[0]`. -/
structure CpuStats where
  numCPUs : Rat
  loadAvgs : List Rat
deriving DecidableEq, Repr

/-- `node["nicStats"]`. -/
structure NicStats where
  bytesSent : Rat
  bytesReceived : Rat
deriving DecidableEq, Repr

/-- The fields `datetime.strptime(v, "%Y-%m-%dT%H:%M:%S.%fZ")` extracts from a
timestamp string `YYYY-MM-DDTHH:MM:SS.ffffffZ` (the trailing `Z` is a literal
character in the format string, not a parsed timezone). -/
structure DateTimeFields where
  year : Nat
  month : Nat
  day : Nat
  hour : Nat
  minute : Nat
  second : Nat
  micro : Nat
deriving DecidableEq, Repr

/-- A record of the `{"nodes": [...]}` list of the stats endpoint, with every
field the source reads.  Keys the source accesses unconditionally are total
fields; `biases` and `ttfbStats` are association lists because the source uses
`.get` / `KeyError` probing of individual keys on them; the timestamp strings
are stored in parsed form (see `DateTimeFields`). -/
structure Node where
  id : String
  state : String
  core : Bool
  ipAddress : String
  sunrise : Bool
  cassini : Bool
  geoloc : Geoloc
  speedtest : SpeedtestField
  version : String
  bias : Rat
  biases : List (String × Rat)
  lastRegistration : DateTimeFields
  createdAt : DateTimeFields
  diskStats : DiskStats
  memoryStats : MemoryStats
  cpuStats : CpuStats
  nicStats : NicStats
  ttfbStats : Option (List (String × Rat))
  healthCheckFailures : Option (List Failure)
deriving DecidableEq, Repr

/-- `_bool_to_str`: `str(v).lower()` on a Python bool. -/
def boolToStr (v : Bool) : String :=
  if v then "true" else "false"

/-- `NodeInfoMetric._id_short`: `v[:8]`. -/
def idShort (v : String) : String :=
  v.take 8

/-- `NodeInfoMetric.add`: builds the label dict in source order, appending the
three speedtest labels exactly when the `speedtest` value is truthy.  The
`sppedtest_` misspelling is the source's. -/
def NodeInfoMetric.add (n : Node) : List Series :=
  let base : List (String × String) :=
    [("id", n.id), ("id_short", idShort n.id), ("state", n.state),
     ("core", boolToStr n.core), ("ip_address", n.ipAddress),
     ("sunrise", boolToStr n.sunrise), ("cassini", boolToStr n.cassini),
     ("geoloc_region", n.geoloc.region), ("geoloc_city", n.geoloc.city),
     ("geoloc_country", n.geoloc.country),
     ("geoloc_country_code", n.geoloc.countryCode)]
  match n.speedtest with
  | .full s =>
      [Series.info (base ++
        [("sppedtest_isp", s.isp),
         ("sppedtest_server_location", s.server.location),
         ("sppedtest_server_country", s.server.country)])]
  | _ => [Series.info base]

/-- `NodeInfoMetric.add_inactive`. -/
def NodeInfoMetric.addInactive (nodeId : String) : Series :=
  Series.info [("id", nodeId), ("id_short", idShort nodeId), ("state", "inactive")]

/-- `NodeVersionMetric.add`: `node["version"].split("_")[0]` as the sample value. -/
def NodeVersionMetric.add (n : Node) : List Series :=
  [Series.str [n.id] (n.version.splitOn ("_")).headI]

/-- `NodeWeightMetric.add`. -/
def NodeWeightMetric.add (n : Node) : List Series :=
  [Series.num [n.id] n.bias]

/-- `NodeBiasMetric._BIASES`, in the source's (insertion) order. -/
def biasTable : List (String × String) :=
  [("ageBias", "age"), ("ttfbBias", "ttfb"), ("randomBias", "random"),
   ("uptimeBias", "uptime"), ("speedtestBias", "speedtest")]

/-- `NodePenaltyMetric._PENALTIES`, in the source's (insertion) order. -/
def penaltyTable : List (String × String) :=
  [("speedPenalty", "speed"), ("cpuLoadPenalty", "cpu_load"),
   ("errorRatioPenalty", "error_ratio"), ("oldVersionPenalty", "old_version"),
   ("cacheHitRatioPenalty", "cache_hit_ratio"),
   ("dupCacheMissRatioPenalty", "dup_cache_miss_ratio"),
   ("healthCheckFailuresPenalty", "health_check_failures")]

/-- The shared loop of `NodeBiasMetric.add` / `NodePenaltyMetric.add`:
`for k, v in table.items(): x = node["biases"].get(k); if x is not None: add_metric([id, v], x)`. -/
def addFromTable (id : String) (m : List (String × Rat)) :
    List (String × String) → List Series
  | [] => []
  | kv :: rest =>
      match m.lookup kv.1 with
      | some v => Series.num [id, kv.2] v :: addFromTable id m rest
      | none => addFromTable id m rest

/-- `NodeBiasMetric.add`. -/
def NodeBiasMetric.add (n : Node) : List Series :=
  addFromTable n.id n.biases biasTable

/-- `NodePenaltyMetric.add` (it, too, reads from `node["biases"]`). -/
def NodePenaltyMetric.add (n : Node) : List Series :=
  addFromTable n.id n.biases penaltyTable

/-- `NodeWeightedTTFBMetric.add`: `node["biases"].get("weightedTtfb")`,
emitted only when not `None`. -/
def NodeWeightedTTFBMetric.add (n : Node) : List Series :=
  match n.biases.lookup ("weightedTtfb") with
  | some v => [Series.num [n.id] v]
  | none => []

/-- `NodeWeightedHitsRatioMetric.add`. -/
def NodeWeightedHitsMetric.add (n : Node) : List Series :=
  match n.biases.lookup ("weightedHitsRatio") with
  | some v => [Series.num [n.id] v]
  | none => []

/-- `NodeWeightedErrorsRatioMetric.add`. -/
def NodeWeightedErrorsMetric.add (n : Node) : List Series :=
  match n.biases.lookup ("weightedErrorsRatio") with
  | some v => [Series.num [n.id] v]
  | none => []

/-- `NodeWeightedDupCacheMissRatioMetric.add`. -/
def NodeWeightedDupCacheMissMetric.add (n : Node) : List Series :=
  match n.biases.lookup ("weightedDupCacheMissRatio") with
  | some v => [Series.num [n.id] v]
  | none => []

/-- The quantile table of `NodeResponseDurationMetric.add`: for
`q in (0.01, 0.05, 0.5, 0.95, 0.99)` the label is `str(q)` and the field read
is `f"p{int(q * 100)}_1h"` (the float products round to exactly 1, 5, 50, 95,
99). -/
def respDurationFields : List (String × String) :=
  [("0.01", "p1_1h"), ("0.05", "p5_1h"), ("0.5", "p50_1h"),
   ("0.95", "p95_1h"), ("0.99", "p99_1h")]

/-- The loop body of `NodeResponseDurationMetric.add`: `ttfb[field]` inside
`try ... except KeyError: return`, so a missing field aborts the whole loop,
discarding no already-emitted samples. -/
def respDurationLoop (id : String) (ttfb : List (String × Rat)) :
    List (String × String) → List Series
  | [] => []
  | q :: rest =>
      match ttfb.lookup q.2 with
      | some v => Series.num [id, q.1] v :: respDurationLoop id ttfb rest
      | none => []

/-- `NodeResponseDurationMetric.add`: `ttfb = node.get("ttfbStats"); if not
ttfb: return`, then the short-circuiting quantile loop. -/
def NodeResponseDurationMetric.add (n : Node) : List Series :=
  match n.ttfbStats with
  | none => []
  | some ttfb =>
      if ttfb = [] then [] else respDurationLoop n.id ttfb respDurationFields

/-- `NodeRequestsMetric.add`: truthiness guard on `ttfbStats`, then the four
counts read inside one `try` block (any `KeyError` drops all four), then the
four samples in source order. -/
def NodeRequestsMetric.add (n : Node) : List Series :=
  match n.ttfbStats with
  | none => []
  | some ttfb =>
      if ttfb = [] then []
      else
        match ttfb.lookup ("reqs_served_1h"), ttfb.lookup ("hits_1h"),
              ttfb.lookup ("errors_1h"), ttfb.lookup ("slow_hits_1h") with
        | some ok, some hits, some errors, some slow =>
            [Series.num [n.id, "ok"] ok, Series.num [n.id, "ok_hit"] hits,
             Series.num [n.id, "error"] errors,
             Series.num [n.id, "ok_slow_hit"] slow]
        | _, _, _, _ => []

/-- One step of the `defaultdict(int)` grouping in
`NodeHealthCheckFailuresMetric.add`: `errors[f["error"]] += 1`.  A key seen
before is incremented in place; a new key is appended (Python dicts iterate in
insertion order). -/
def bumpError (acc : List (String × Nat)) (e : String) : List (String × Nat) :=
  if acc.any (fun p => p.1 = e) then
    acc.map (fun p => if p.1 = e then (p.1, p.2 + 1) else p)
  else
    acc ++ [(e, 1)]

/-- The full `defaultdict(int)` pass over the failure list's error strings. -/
def groupErrorCounts (l : List String) : List (String × Nat) :=
  l.foldl bumpError []

/-- `NodeHealthCheckFailuresMetric.add`: a falsy (absent or empty) failure
list emits the single zero sample with only the `id` label; otherwise one
sample per grouped error kind. -/
def NodeHealthCheckFailuresMetric.add (n : Node) : List Series :=
  match n.healthCheckFailures with
  | none => [Series.num [n.id] 0]
  | some fs =>
      if fs = [] then [Series.num [n.id] 0]
      else
        (groupErrorCounts (fs.map Failure.error)).map
          (fun p => Series.num [n.id, p.1] (p.2 : Rat))

/-- `NodeSpeedtestUploadBandwidthMetric.add`. -/
def NodeSpeedtestUploadBandwidthMetric.add (n : Node) : List Series :=
  match n.speedtest with
  | .full s => [Series.num [n.id] s.uploadBandwidth]
  | _ => []

/-- `NodeSpeedtestDownloadBandwidthMetric.add`. -/
def NodeSpeedtestDownloadBandwidthMetric.add (n : Node) : List Series :=
  match n.speedtest with
  | .full s => [Series.num [n.id] s.downloadBandwidth]
  | _ => []

/-- `NodeSpeedtestPingLatencyMetric.add`. -/
def NodeSpeedtestPingLatencyMetric.add (n : Node) : List Series :=
  match n.speedtest with
  | .full s => [Series.num [n.id] s.pingLatency]
  | _ => []

/-- Proleptic-Gregorian leap-year rule, as used by Python's `datetime`. -/
def isLeapYear (y : Nat) : Bool :=
  y % 4 == 0 && (y % 100 != 0 || y % 400 == 0)

/-- Length of year `y` in days. -/
def daysInYear (y : Nat) : Nat :=
  if isLeapYear y then 366 else 365

/-- Month lengths of a (non-)leap year. -/
def monthDays (leap : Bool) : List Nat :=
  [31, if leap then 29 else 28, 31, 30, 31, 30, 31, 31, 30, 31, 30, 31]

/-- Days of year `y` that precede the first day of month `m` (1-based). -/
def daysBeforeMonth (leap : Bool) (m : Nat) : Nat :=
  ((monthDays leap).take (m - 1)).foldl (fun a b => a + b) 0

/-- Days from 1970-01-01 to the civil date `y-m-d` (for `y ≥ 1970`). -/
def daysSinceEpoch (y m d : Nat) : Nat :=
  (List.range' 1970 (y - 1970)).foldl (fun acc yy => acc + daysInYear yy) 0
    + daysBeforeMonth (isLeapYear y) m + (d - 1)

/-- Seconds from the Unix epoch to the wall-clock fields `t` read as a UTC
instant (microseconds excluded). -/
def epochSeconds (t : DateTimeFields) : Nat :=
  daysSinceEpoch t.year t.month t.day * 86400
    + t.hour * 3600 + t.minute * 60 + t.second

/-- `_str_to_timestamp`: the source parses the string with
`datetime.strptime(v, "%Y-%m-%dT%H:%M:%S.%fZ")` — producing a NAIVE datetime,
because the `Z` in the format string is a literal character — and then calls
`.timestamp()`, which interprets a naive datetime in the process's LOCAL
timezone, then multiplies by 1000.  `tzOffsetSeconds` is the local UTC offset
(local minus UTC, e.g. 3600 for UTC+01:00) in effect at that wall-clock time,
so the float returned by `timestamp()` is
`epochSeconds t - tzOffsetSeconds + micro / 1000000`, and the metric value is
that times 1000. -/
def strToTimestamp (t : DateTimeFields) (tzOffsetSeconds : Int) : Rat :=
  (((epochSeconds t : Int) - tzOffsetSeconds : Int) : Rat) * 1000
    + (t.micro : Rat) / 1000

/-- `NodeLastRegistrationMetric.add` (the local-timezone parameter `tz` is
threaded through from the environment, see `strToTimestamp`). -/
def NodeLastRegistrationMetric.add (tz : Int) (n : Node) : List Series :=
  [Series.num [n.id] (strToTimestamp n.lastRegistration tz)]

/-- `NodeCreationMetric.add`. -/
def NodeCreationMetric.add (tz : Int) (n : Node) : List Series :=
  [Series.num [n.id] (strToTimestamp n.createdAt tz)]

/-- `NodeDiskTotalMetric.add`. -/
def NodeDiskTotalMetric.add (n : Node) : List Series :=
  [Series.num [n.id] n.diskStats.totalDiskMB]

/-- `NodeDiskUsedMetric.add`. -/
def NodeDiskUsedMetric.add (n : Node) : List Series :=
  [Series.num [n.id] n.diskStats.usedDiskMB]

/-- `NodeDiskAvailableMetric.add`. -/
def NodeDiskAvailableMetric.add (n : Node) : List Series :=
  [Series.num [n.id] n.diskStats.availableDiskMB]

/-- `NodeMemoryTotalMetric.add`. -/
def NodeMemoryTotalMetric.add (n : Node) : List Series :=
  [Series.num [n.id] n.memoryStats.totalMemoryKB]

/-- `NodeMemoryFreeMetric.add`. -/
def NodeMemoryFreeMetric.add (n : Node) : List Series :=
  [Series.num [n.id] n.memoryStats.freeMemoryKB]

/-- `NodeMemoryAvailableMetric.add`. -/
def NodeMemoryAvailableMetric.add (n : Node) : List Series :=
  [Series.num [n.id] n.memoryStats.availableMemoryKB]

/-- `NodeCPUNumberMetric.add`. -/
def NodeCPUNumberMetric.add (n : Node) : List Series :=
  [Series.num [n.id] n.cpuStats.numCPUs]

/-- `NodeCPULoadAvgMetric.add`: the source reads `loadAvgs[0]`; well-formed
records carry a non-empty list, of which the head is taken. -/
def NodeCPULoadAvgMetric.add (n : Node) : List Series :=
  [Series.num [n.id] n.cpuStats.loadAvgs.headI]

/-- `NodeSentBytesTotalMetric.add`. -/
def NodeSentBytesTotalMetric.add (n : Node) : List Series :=
  [Series.num [n.id] n.nicStats.bytesSent]

/-- `NodeReceivedBytesTotalMetric.add`. -/
def NodeReceivedBytesTotalMetric.add (n : Node) : List Series :=
  [Series.num [n.id] n.nicStats.bytesReceived]

/-- The tuple of metric families `StatsCollector._node_metrics_from_stats`
constructs afresh on every call, one field per family, each holding the series
added so far, in the source's declaration order. -/
structure Families where
  info : List Series
  version : List Series
  weight : List Series
  bias : List Series
  penalty : List Series
  weightedTtfb : List Series
  weightedHits : List Series
  weightedErrors : List Series
  weightedDupCacheMiss : List Series
  lastRegistration : List Series
  creation : List Series
  diskTotal : List Series
  diskUsed : List Series
  diskAvailable : List Series
  memTotal : List Series
  memFree : List Series
  memAvailable : List Series
  cpuNumber : List Series
  cpuLoadAvg : List Series
  responseDuration : List Series
  requests : List Series
  healthCheckFailures : List Series
  sentBytes : List Series
  receivedBytes : List Series
  speedtestUpload : List Series
  speedtestDownload : List Series
  speedtestPing : List Series
deriving DecidableEq, Repr

/-- Freshly constructed metric families: every family starts with no series,
exactly as the constructors in `_node_metrics_from_stats` build them. -/
def emptyFamilies : Families where
  info := []
  version := []
  weight := []
  bias := []
  penalty := []
  weightedTtfb := []
  weightedHits := []
  weightedErrors := []
  weightedDupCacheMiss := []
  lastRegistration := []
  creation := []
  diskTotal := []
  diskUsed := []
  diskAvailable := []
  memTotal := []
  memFree := []
  memAvailable := []
  cpuNumber := []
  cpuLoadAvg := []
  responseDuration := []
  requests := []
  healthCheckFailures := []
  sentBytes := []
  receivedBytes := []
  speedtestUpload := []
  speedtestDownload := []
  speedtestPing := []

/-- `for m in metrics: m.add(node)` — every family appends its samples for one
matched node. -/
def addNode (tz : Int) (f : Families) (n : Node) : Families where
  info := f.info ++ NodeInfoMetric.add n
  version := f.version ++ NodeVersionMetric.add n
  weight := f.weight ++ NodeWeightMetric.add n
  bias := f.bias ++ NodeBiasMetric.add n
  penalty := f.penalty ++ NodePenaltyMetric.add n
  weightedTtfb := f.weightedTtfb ++ NodeWeightedTTFBMetric.add n
  weightedHits := f.weightedHits ++ NodeWeightedHitsMetric.add n
  weightedErrors := f.weightedErrors ++ NodeWeightedErrorsMetric.add n
  weightedDupCacheMiss := f.weightedDupCacheMiss ++ NodeWeightedDupCacheMissMetric.add n
  lastRegistration := f.lastRegistration ++ NodeLastRegistrationMetric.add tz n
  creation := f.creation ++ NodeCreationMetric.add tz n
  diskTotal := f.diskTotal ++ NodeDiskTotalMetric.add n
  diskUsed := f.diskUsed ++ NodeDiskUsedMetric.add n
  diskAvailable := f.diskAvailable ++ NodeDiskAvailableMetric.add n
  memTotal := f.memTotal ++ NodeMemoryTotalMetric.add n
  memFree := f.memFree ++ NodeMemoryFreeMetric.add n
  memAvailable := f.memAvailable ++ NodeMemoryAvailableMetric.add n
  cpuNumber := f.cpuNumber ++ NodeCPUNumberMetric.add n
  cpuLoadAvg := f.cpuLoadAvg ++ NodeCPULoadAvgMetric.add n
  responseDuration := f.responseDuration ++ NodeResponseDurationMetric.add n
  requests := f.requests ++ NodeRequestsMetric.add n
  healthCheckFailures := f.healthCheckFailures ++ NodeHealthCheckFailuresMetric.add n
  sentBytes := f.sentBytes ++ NodeSentBytesTotalMetric.add n
  receivedBytes := f.receivedBytes ++ NodeReceivedBytesTotalMetric.add n
  speedtestUpload := f.speedtestUpload ++ NodeSpeedtestUploadBandwidthMetric.add n
  speedtestDownload := f.speedtestDownload ++ NodeSpeedtestDownloadBandwidthMetric.add n
  speedtestPing := f.speedtestPing ++ NodeSpeedtestPingLatencyMetric.add n

/-- One iteration of the record loop in `_node_metrics_from_stats`: skip the
node when the configured id set is non-empty and does not contain its id;
otherwise record the id as found and let every family add its samples. -/
def statsStep (tz : Int) (nodeIds : List String)
    (acc : Families × List String) (n : Node) : Families × List String :=
  if nodeIds ≠ [] ∧ n.id ∉ nodeIds then acc
  else (addNode tz acc.1 n, acc.2 ++ [n.id])

/-- `StatsCollector._node_metrics_from_stats`: fold the record loop over the
fetched list starting from freshly constructed (empty) families and an empty
found-set, then synthesize one inactive info sample for every configured id
not found (`self._node_ids - found`; `nodeIds` plays the configured
`frozenset`, so duplicates are ignored via `dedup`). -/
def StatsCollector.nodeMetricsFromStats (tz : Int) (nodeIds : List String)
    (stats : List Node) : Families :=
  let r := stats.foldl (statsStep tz nodeIds) (emptyFamilies, [])
  { r.1 with
    info := r.1.info ++
      (nodeIds.dedup.filter (fun i => i ∉ r.2)).map NodeInfoMetric.addInactive }

/-- Two scrapes of the stats collector on identical fetched data: `collect`
invokes `_node_metrics_from_stats` once per scrape, and that function
constructs its metric families and its found-set locally (the collector object
itself holds only the immutable configured id set). -/
def StatsCollector.collectTwice (tz : Int) (nodeIds : List String)
    (stats : List Node) : Families × Families :=
  (StatsCollector.nodeMetricsFromStats tz nodeIds stats,
   StatsCollector.nodeMetricsFromStats tz nodeIds stats)

/-- A record of the `perNodeMetrics` list of the earnings endpoint.  The
source reads `nodeId` unconditionally (total field); `payoutStatus` is read
unconditionally too but may be missing upstream, so its presence is modelled
to expose the `KeyError` path; the four numeric fields are read with `.get`. -/
structure EarningsNode where
  nodeId : String
  payoutStatus : Option String
  filAmount : Option Rat
  uptimeCompletion : Option Rat
  numRequests : Option Rat
  numBytes : Option Rat
deriving DecidableEq, Repr

/-- `NodePayoutInfoMetric.add`: `node["payoutStatus"]` with no presence check —
a missing key raises `KeyError`, modelled as the error branch. -/
def NodePayoutInfoMetric.add (n : EarningsNode) : Except String (List Series) :=
  match n.payoutStatus with
  | some s => Except.ok [Series.info [("id", n.nodeId), ("status", s)]]
  | none => Except.error ("KeyError: payoutStatus")

/-- `NodeEstimatedEarningsMetric.add`: `node.get("filAmount")`, emitted only
when not `None`. -/
def NodeEstimatedEarningsMetric.add (n : EarningsNode) : List Series :=
  match n.filAmount with
  | some v => [Series.num [n.nodeId] v]
  | none => []

/-- `NodeUptimeCompletionMetric.add`. -/
def NodeUptimeCompletionMetric.add (n : EarningsNode) : List Series :=
  match n.uptimeCompletion with
  | some v => [Series.num [n.nodeId] v]
  | none => []

/-- `NodeRetrievalsMetric.add`. -/
def NodeRetrievalsMetric.add (n : EarningsNode) : List Series :=
  match n.numRequests with
  | some v => [Series.num [n.nodeId] v]
  | none => []

/-- `NodeBandwidthServedMetric.add`. -/
def NodeBandwidthServedMetric.add (n : EarningsNode) : List Series :=
  match n.numBytes with
  | some v => [Series.num [n.nodeId] v]
  | none => []

/-- The requirements endpoint's single flat record; all seven fields may in
principle be missing upstream, which the source does not guard against. -/
structure Requirements where
  minCPUCores : Option Rat
  minMemoryGB : Option Rat
  minUploadSpeedMbps : Option Rat
  minDownloadSpeedMbps : Option Rat
  minDiskGB : Option Rat
  lastVersion : Option Rat
  minVersion : Option Rat
deriving DecidableEq, Repr

/-- `NodeRequirementsMinCPUCoresMetric.add`: `requirements["minCPUCores"]`,
no presence check — a missing key raises `KeyError`. -/
def NodeRequirementsMinCPUCoresMetric.add (r : Requirements) :
    Except String (List Series) :=
  match r.minCPUCores with
  | some v => Except.ok [Series.num [] v]
  | none => Except.error ("KeyError: minCPUCores")

/-- `NodeRequirementsMinMemoryMetric.add`. -/
def NodeRequirementsMinMemoryMetric.add (r : Requirements) :
    Except String (List Series) :=
  match r.minMemoryGB with
  | some v => Except.ok [Series.num [] v]
  | none => Except.error ("KeyError: minMemoryGB")

/-- `NodeRequirementsMinUploadSpeedMetric.add`. -/
def NodeRequirementsMinUploadSpeedMetric.add (r : Requirements) :
    Except String (List Series) :=
  match r.minUploadSpeedMbps with
  | some v => Except.ok [Series.num [] v]
  | none => Except.error ("KeyError: minUploadSpeedMbps")

/-- `NodeRequirementsMinDownloadSpeedMetric.add`. -/
def NodeRequirementsMinDownloadSpeedMetric.add (r : Requirements) :
    Except String (List Series) :=
  match r.minDownloadSpeedMbps with
  | some v => Except.ok [Series.num [] v]
  | none => Except.error ("KeyError: minDownloadSpeedMbps")

/-- `NodeRequirementsMinDiskMetric.add`. -/
def NodeRequirementsMinDiskMetric.add (r : Requirements) :
    Except String (List Series) :=
  match r.minDiskGB with
  | some v => Except.ok [Series.num [] v]
  | none => Except.error ("KeyError: minDiskGB")

/-- `NodeRequirementsLastVersionMetric.add`. -/
def NodeRequirementsLastVersionMetric.add (r : Requirements) :
    Except String (List Series) :=
  match r.lastVersion with
  | some v => Except.ok [Series.num [] v]
  | none => Except.error ("KeyError: lastVersion")

/-- `NodeRequirementsMinVersionMetric.add`. -/
def NodeRequirementsMinVersionMetric.add (r : Requirements) :
    Except String (List Series) :=
  match r.minVersion with
  | some v => Except.ok [Series.num [] v]
  | none => Except.error ("KeyError: minVersion")

/-- `RequirementsCollector._node_requirements_metrics`: `for m in metrics:
m.add(requirements)` over the seven families in declaration order; the first
`KeyError` propagates to the caller, so nothing is returned on failure. -/
def RequirementsCollector.nodeRequirementsMetrics (r : Requirements) :
    Except String (List (List Series)) := do
  let m1 ← NodeRequirementsMinCPUCoresMetric.add r
  let m2 ← NodeRequirementsMinMemoryMetric.add r
  let m3 ← NodeRequirementsMinUploadSpeedMetric.add r
  let m4 ← NodeRequirementsMinDownloadSpeedMetric.add r
  let m5 ← NodeRequirementsMinDiskMetric.add r
  let m6 ← NodeRequirementsLastVersionMetric.add r
  let m7 ← NodeRequirementsMinVersionMetric.add r
  pure [m1, m2, m3, m4, m5, m6, m7]

/-! ### Concrete records used to instantiate the claims -/

/-- A well-formed stats record with all optional parts absent; the concrete
instances of the claims are built from it by field updates. -/
def sampleNode : Node where
  id := "e3a1bc9f-node-0001"
  state := "active"
  core := false
  ipAddress := "203.0.113.7"
  sunrise := false
  cassini := true
  geoloc := { region := "CA", city := "Toronto", country := "Canada", countryCode := "CA" }
  speedtest := SpeedtestField.absent
  version := "1041_7e2b9a0"
  bias := 100
  biases := []
  lastRegistration := ⟨2023, 1, 1, 0, 0, 0, 0⟩
  createdAt := ⟨2023, 1, 1, 0, 0, 0, 0⟩
  diskStats := { totalDiskMB := 4096, usedDiskMB := 1024, availableDiskMB := 3072 }
  memoryStats := { totalMemoryKB := 8192, freeMemoryKB := 2048, availableMemoryKB := 4096 }
  cpuStats := { numCPUs := 8, loadAvgs := [2] }
  nicStats := { bytesSent := 1000, bytesReceived := 500 }
  ttfbStats := none
  healthCheckFailures := none

/-! ### C1: latency-quantile family -/

/-- The short-circuiting loop emits exactly the longest prefix of the quantile
table all of whose fields are present, in table order. -/
theorem respDurationLoop_eq_takeWhile (id : String) (ttfb : List (String × Rat)) :
    ∀ tbl : List (String × String),
      respDurationLoop id ttfb tbl =
        (tbl.takeWhile (fun q => (ttfb.lookup q.2).isSome)).map
          (fun q => Series.num [id, q.1] ((ttfb.lookup q.2).getD 0))
  | [] => rfl
  | q :: rest => by
      cases h : ttfb.lookup q.2 with
      | none => simp [respDurationLoop, List.takeWhile_cons, h]
      | some v =>
          simp [respDurationLoop, List.takeWhile_cons, h,
            respDurationLoop_eq_takeWhile id ttfb rest]

/-- C1: for every stats record, the latency-quantile family reads the fields
`p1_1h, p5_1h, p50_1h, p95_1h, p99_1h` in the fixed quantile order
0.01, 0.05, 0.5, 0.95, 0.99 and emits exactly the longest prefix of present
fields (it stops at the first missing field); an absent `ttfbStats` emits
nothing.  In particular, with `p1_1h`, `p5_1h`, `p50_1h` present and `p95_1h`
absent, exactly the three series 0.01, 0.05, 0.5 are emitted and none for
0.95 or 0.99 — even when `p99_1h` is present. -/
theorem nodeResponseDuration_quantile_short_circuit :
    (∀ n : Node,
      NodeResponseDurationMetric.add n =
        match n.ttfbStats with
        | none => []
        | some ttfb =>
            (respDurationFields.takeWhile (fun q => (ttfb.lookup q.2).isSome)).map
              (fun q => Series.num [n.id, q.1] ((ttfb.lookup q.2).getD 0))) ∧
    NodeResponseDurationMetric.add
        { sampleNode with
          ttfbStats := some [("p1_1h", 11), ("p5_1h", 22), ("p50_1h", 33), ("p99_1h", 55)] } =
      [Series.num [sampleNode.id, "0.01"] 11, Series.num [sampleNode.id, "0.05"] 22,
       Series.num [sampleNode.id, "0.5"] 33] := by
  constructor
  · intro n
    unfold NodeResponseDurationMetric.add
    cases n.ttfbStats with
    | none => rfl
    | some ttfb =>
        by_cases he : ttfb = []
        · subst he; rfl
        · simp [he, respDurationLoop_eq_takeWhile]
  · decide

/-! ### C2: request-outcome family -/

/-- C2: for every stats record, the request-outcome family emits exactly the
four series `ok, ok_hit, error, ok_slow_hit` (taken from `reqs_served_1h`,
`hits_1h`, `errors_1h`, `slow_hits_1h`) when all four fields are present, and
no series at all when `ttfbStats` is absent or any one of the four fields is
missing.  In particular, three of the four fields present emit nothing. -/
theorem nodeRequests_all_or_nothing :
    (∀ n : Node,
      NodeRequestsMetric.add n =
        match n.ttfbStats with
        | none => []
        | some ttfb =>
            match ttfb.lookup ("reqs_served_1h"), ttfb.lookup ("hits_1h"),
                  ttfb.lookup ("errors_1h"), ttfb.lookup ("slow_hits_1h") with
            | some ok, some hits, some errors, some slow =>
                [Series.num [n.id, "ok"] ok, Series.num [n.id, "ok_hit"] hits,
                 Series.num [n.id, "error"] errors,
                 Series.num [n.id, "ok_slow_hit"] slow]
            | _, _, _, _ => []) ∧
    NodeRequestsMetric.add
        { sampleNode with
          ttfbStats := some [("reqs_served_1h", 7), ("hits_1h", 5), ("errors_1h", 2)] } = [] ∧
    NodeRequestsMetric.add
        { sampleNode with
          ttfbStats := some
            [("reqs_served_1h", 7), ("hits_1h", 5), ("errors_1h", 2), ("slow_hits_1h", 1)] } =
      [Series.num [sampleNode.id, "ok"] 7, Series.num [sampleNode.id, "ok_hit"] 5,
       Series.num [sampleNode.id, "error"] 2, Series.num [sampleNode.id, "ok_slow_hit"] 1] := by
  refine ⟨?_, by decide, by decide⟩
  intro n
  unfold NodeRequestsMetric.add
  cases n.ttfbStats with
  | none => rfl
  | some ttfb =>
      by_cases he : ttfb = []
      · subst he; rfl
      · simp [he]

/-! ### C3: health-check-failure family -/

/-- `List.lookup` on a cons cell, in `if` form. -/
theorem lookup_cons_eq (k x : String) (c : Nat) (l : List (String × Nat)) :
    ((k, c) :: l).lookup x = if x = k then some c else l.lookup x := by
  by_cases h : x = k
  · subst h; simp [List.lookup]
  · simp [List.lookup, beq_eq_false_iff_ne.mpr h, h]

/-- The truthiness test of `bumpError` agrees with key membership. -/
theorem any_fst_eq_iff (e : String) (acc : List (String × Nat)) :
    acc.any (fun p => decide (p.1 = e)) = true ↔ e ∈ acc.map Prod.fst := by
  simp [List.any_eq_true, List.mem_map]

/-- `bumpError` on a seen key increments in place. -/
theorem bumpError_of_mem (e : String) (acc : List (String × Nat))
    (h : e ∈ acc.map Prod.fst) :
    bumpError acc e = acc.map (fun p => if p.1 = e then (p.1, p.2 + 1) else p) := by
  unfold bumpError
  rw [if_pos ((any_fst_eq_iff e acc).mpr h)]

/-- `bumpError` on a fresh key appends it with count one. -/
theorem bumpError_of_not_mem (e : String) (acc : List (String × Nat))
    (h : e ∉ acc.map Prod.fst) :
    bumpError acc e = acc ++ [(e, 1)] := by
  unfold bumpError
  rw [if_neg]
  simp only [any_fst_eq_iff]
  exact h

/-- In-place increment leaves the key sequence unchanged. -/
theorem map_fst_map_bump (e : String) :
    ∀ acc : List (String × Nat),
      (acc.map (fun p => if p.1 = e then (p.1, p.2 + 1) else p)).map Prod.fst =
        acc.map Prod.fst
  | [] => rfl
  | (k, c) :: rest => by
      by_cases hk : k = e <;> simp [hk, map_fst_map_bump e rest]

/-- In-place increment under `lookup`. -/
theorem lookup_map_bump (e x : String) :
    ∀ acc : List (String × Nat),
      (acc.map (fun p => if p.1 = e then (p.1, p.2 + 1) else p)).lookup x =
        if x = e then (acc.lookup x).map (fun c => c + 1) else acc.lookup x
  | [] => by by_cases hx : x = e <;> simp [hx]
  | (k, c) :: rest => by
      have ih := lookup_map_bump e x rest
      by_cases hk : k = e
      · subst hk
        by_cases hx : x = k
        · subst hx
          simp [lookup_cons_eq, ih]
        · simp [lookup_cons_eq, hx, ih]
      · by_cases hx : x = k
        · subst hx
          have hxe : x ≠ e := hk
          simp [lookup_cons_eq, hxe, hk, ih]
        · simp [lookup_cons_eq, hk, hx, ih]

/-- `lookup` over appending a fresh single binding. -/
theorem lookup_append_single (x e : String) (v : Nat) :
    ∀ acc : List (String × Nat),
      (acc ++ [(e, v)]).lookup x =
        match acc.lookup x with
        | some c => some c
        | none => if x = e then some v else none
  | [] => by by_cases hx : x = e <;> simp [hx, lookup_cons_eq]
  | (k, c) :: rest => by
      by_cases hx : x = k <;>
        simp [hx, lookup_cons_eq, lookup_append_single x e v rest]

/-- A key outside the key sequence has no binding. -/
theorem lookup_none_of_not_mem_fst (x : String) :
    ∀ acc : List (String × Nat), x ∉ acc.map Prod.fst → acc.lookup x = none
  | [], _ => rfl
  | (k, c) :: rest, h => by
      have hx : x ≠ k := by intro hc; exact h (by simp [hc])
      have hr : x ∉ rest.map Prod.fst := by intro hc; exact h (by simp [hc])
      simp [lookup_cons_eq, hx, lookup_none_of_not_mem_fst x rest hr]

/-- A key of the key sequence has a binding. -/
theorem lookup_isSome_of_mem_fst (x : String) :
    ∀ acc : List (String × Nat),
      x ∈ acc.map Prod.fst → (acc.lookup x).isSome = true
  | [], h => by simp at h
  | (k, c) :: rest, h => by
      by_cases hx : x = k
      · simp [lookup_cons_eq, hx]
      · have hr : x ∈ rest.map Prod.fst := by
          rcases (by simpa using h : x = k ∨ x ∈ rest.map Prod.fst) with h' | h'
          · exact absurd h' hx
          · exact h'
        simp [lookup_cons_eq, hx, lookup_isSome_of_mem_fst x rest hr]

/-- The value of `bumpError` under `lookup`: the bumped key gains one, every
other key is untouched. -/
theorem bumpError_lookup (e x : String) (acc : List (String × Nat)) :
    (bumpError acc e).lookup x =
      if x = e then some ((acc.lookup x).getD 0 + 1) else acc.lookup x := by
  by_cases hm : e ∈ acc.map Prod.fst
  · rw [bumpError_of_mem e acc hm, lookup_map_bump]
    by_cases hx : x = e
    · subst hx
      rcases ho : acc.lookup x with _ | c
      · have hs := lookup_isSome_of_mem_fst x acc hm
        rw [ho] at hs
        simp at hs
      · simp [ho]
    · simp [hx]
  · rw [bumpError_of_not_mem e acc hm, lookup_append_single]
    by_cases hx : x = e
    · subst hx
      simp [lookup_none_of_not_mem_fst x acc hm]
    · rcases ho : acc.lookup x with _ | c <;> simp [hx]

/-- The keys of `bumpError`: unchanged for a seen key, the new key appended
otherwise. -/
theorem bumpError_map_fst (e : String) (acc : List (String × Nat)) :
    (bumpError acc e).map Prod.fst =
      if e ∈ acc.map Prod.fst then acc.map Prod.fst
      else acc.map Prod.fst ++ [e] := by
  by_cases hm : e ∈ acc.map Prod.fst
  · rw [bumpError_of_mem e acc hm, map_fst_map_bump, if_pos hm]
  · rw [bumpError_of_not_mem e acc hm, if_neg hm]
    simp

/-- The key-sequence shadow of one `bumpError` step. -/
def seenKeys (ks : List String) (e : String) : List String :=
  if e ∈ ks then ks else ks ++ [e]

/-- The grouping fold's keys are the `seenKeys` fold of the input. -/
theorem foldl_bumpError_map_fst :
    ∀ (l : List String) (acc : List (String × Nat)),
      (l.foldl bumpError acc).map Prod.fst =
        l.foldl seenKeys (acc.map Prod.fst)
  | [], acc => rfl
  | e :: rest, acc => by
      rw [List.foldl_cons, List.foldl_cons,
        foldl_bumpError_map_fst rest (bumpError acc e), bumpError_map_fst]
      rfl

/-- `seenKeys` folding preserves key distinctness. -/
theorem foldl_seenKeys_nodup :
    ∀ (l : List String) (ks : List String), ks.Nodup → (l.foldl seenKeys ks).Nodup
  | [], _, h => h
  | e :: rest, ks, h => by
      rw [List.foldl_cons]
      refine foldl_seenKeys_nodup rest (seenKeys ks e) ?_
      unfold seenKeys
      by_cases hm : e ∈ ks
      · simpa [hm] using h
      · rw [if_neg hm, List.nodup_append_comm, List.singleton_append,
          List.nodup_cons]
        exact ⟨hm, h⟩

/-- Membership after `seenKeys` folding. -/
theorem foldl_seenKeys_mem (x : String) :
    ∀ (l : List String) (ks : List String),
      x ∈ l.foldl seenKeys ks ↔ x ∈ ks ∨ x ∈ l
  | [], ks => by simp
  | e :: rest, ks => by
      rw [List.foldl_cons, foldl_seenKeys_mem x rest (seenKeys ks e)]
      unfold seenKeys
      by_cases hm : e ∈ ks
      · by_cases hx : x = e
        · subst hx
          simp [hm]
        · simp [hm, hx]
      · by_cases hx : x = e
        · subst hx
          simp [hm]
        · simp [hm, hx, or_assoc]

/-- The grouping fold under `lookup`: every key's count grows by its number of
occurrences in the input; fresh keys end at their occurrence count. -/
theorem foldl_bumpError_lookup (x : String) :
    ∀ (l : List String) (acc : List (String × Nat)),
      (l.foldl bumpError acc).lookup x =
        match acc.lookup x with
        | some c => some (c + l.count x)
        | none => if x ∈ l then some (l.count x) else none
  | [], acc => by
      cases ho : acc.lookup x with
      | none => simp [ho]
      | some c => simp [ho]
  | e :: rest, acc => by
      rw [List.foldl_cons, foldl_bumpError_lookup x rest (bumpError acc e),
        bumpError_lookup]
      by_cases hx : x = e
      · subst hx
        cases ho : acc.lookup x with
        | none =>
            simp [ho, List.count_cons_self]
            try omega
        | some c =>
            simp [ho, List.count_cons_self]
            try omega
      · cases ho : acc.lookup x with
        | none => simp [hx, ho, List.count_cons_of_ne hx]
        | some c => simp [hx, ho, List.count_cons_of_ne hx]

/-- Lookup characterization of `groupErrorCounts`. -/
theorem groupErrorCounts_lookup (l : List String) (x : String) :
    (groupErrorCounts l).lookup x =
      if x ∈ l then some (l.count x) else none := by
  unfold groupErrorCounts
  rw [foldl_bumpError_lookup]
  simp

/-- The grouped keys are pairwise distinct. -/
theorem groupErrorCounts_keys_nodup (l : List String) :
    ((groupErrorCounts l).map Prod.fst).Nodup := by
  unfold groupErrorCounts
  rw [foldl_bumpError_map_fst]
  exact foldl_seenKeys_nodup l [] (by simp)

/-- The grouped keys are exactly the distinct input elements. -/
theorem groupErrorCounts_keys_mem (l : List String) (x : String) :
    x ∈ (groupErrorCounts l).map Prod.fst ↔ x ∈ l := by
  unfold groupErrorCounts
  rw [foldl_bumpError_map_fst, foldl_seenKeys_mem]
  simp

/-- On a distinct-keyed association list, membership and `lookup` agree. -/
theorem mem_iff_lookup_of_nodup (x : String) (c : Nat) :
    ∀ acc : List (String × Nat), (acc.map Prod.fst).Nodup →
      ((x, c) ∈ acc ↔ acc.lookup x = some c)
  | [], _ => by simp
  | (k, v) :: rest, h => by
      rw [List.map_cons, List.nodup_cons] at h
      by_cases hx : x = k
      · subst hx
        have hnr : (x, c) ∉ rest := fun hc =>
          h.1 (List.mem_map.2 ⟨(x, c), hc, rfl⟩)
        simp [lookup_cons_eq, hnr, eq_comm]
      · simp [lookup_cons_eq, hx, mem_iff_lookup_of_nodup x c rest h.2]

/-- Number of grouped keys = number of distinct input elements. -/
theorem groupErrorCounts_length (l : List String) :
    (groupErrorCounts l).length = l.dedup.length := by
  have hkeys : (groupErrorCounts l).length =
      ((groupErrorCounts l).map Prod.fst).length := by simp
  have hfin : ((groupErrorCounts l).map Prod.fst).toFinset = l.dedup.toFinset := by
    ext x
    rw [List.mem_toFinset, List.mem_toFinset, groupErrorCounts_keys_mem,
      List.mem_dedup]
  rw [hkeys, ← List.toFinset_card_of_nodup (groupErrorCounts_keys_nodup l), hfin,
    List.toFinset_card_of_nodup (List.nodup_dedup l)]

/-- C3: for every stats record, an absent or empty failure-event list emits
exactly one zero-valued series carrying only the id label (no error-kind
label), and a non-empty list emits exactly one series per distinct error-kind
string, labeled `{id, error}` and valued by the number of events of that kind
(one series per distinct kind, by the length clause together with key
distinctness). -/
theorem nodeHealthCheckFailures_grouping (n : Node) :
    ((n.healthCheckFailures = none ∨ n.healthCheckFailures = some []) →
        NodeHealthCheckFailuresMetric.add n = [Series.num [n.id] 0]) ∧
    (∀ fs, n.healthCheckFailures = some fs → fs ≠ [] →
      (∀ e k, Series.num [n.id, e] k ∈ NodeHealthCheckFailuresMetric.add n ↔
          (e ∈ fs.map Failure.error ∧
            k = ((fs.map Failure.error).count e : Rat))) ∧
      (NodeHealthCheckFailuresMetric.add n).length =
        (fs.map Failure.error).dedup.length) := by
  constructor
  · rintro (h | h) <;> simp [NodeHealthCheckFailuresMetric.add, h]
  · intro fs hfs hne
    have hadd : NodeHealthCheckFailuresMetric.add n =
        (groupErrorCounts (fs.map Failure.error)).map
          (fun p => Series.num [n.id, p.1] (p.2 : Rat)) := by
      simp [NodeHealthCheckFailuresMetric.add, hfs, hne]
    refine ⟨?_, ?_⟩
    · intro e k
      rw [hadd]
      constructor
      · intro hmem
        rcases List.mem_map.1 hmem with ⟨⟨p1, p2⟩, hp, heq⟩
        have hp1 : p1 = e ∧ (p2 : Rat) = k := by simpa using heq
        obtain ⟨hpe, hpk⟩ := hp1
        subst hpe
        have hlk := (mem_iff_lookup_of_nodup p1 p2 _
          (groupErrorCounts_keys_nodup (fs.map Failure.error))).1 hp
        rw [groupErrorCounts_lookup] at hlk
        by_cases hm : p1 ∈ fs.map Failure.error
        · rw [if_pos hm] at hlk
          have hp2 : p2 = (fs.map Failure.error).count p1 :=
            (Option.some.inj hlk).symm
          exact ⟨hm, by rw [← hpk, hp2]⟩
        · rw [if_neg hm] at hlk
          cases hlk
      · rintro ⟨hm, hk⟩
        have hlk : (groupErrorCounts (fs.map Failure.error)).lookup e =
            some ((fs.map Failure.error).count e) := by
          rw [groupErrorCounts_lookup, if_pos hm]
        have hpmem := (mem_iff_lookup_of_nodup e ((fs.map Failure.error).count e) _
          (groupErrorCounts_keys_nodup (fs.map Failure.error))).2 hlk
        exact List.mem_map.2
          ⟨(e, (fs.map Failure.error).count e), hpmem, by rw [hk]⟩
    · rw [hadd, List.length_map, groupErrorCounts_length]

/-- The C3 witness failure list: two timeouts and one dns failure. -/
def exFailures : List Failure :=
  [⟨"timeout"⟩, ⟨"timeout"⟩, ⟨"dns"⟩]

/-- The C3 witness record. -/
def exNodeC3 : Node :=
  { sampleNode with healthCheckFailures := some exFailures }

/-- Witness for C3 at the failure list `[timeout, timeout, dns]`: the series
`{error=timeout} = 2` and `{error=dns} = 1` are emitted and the family has
exactly two series. -/
theorem nodeHealthCheckFailures_grouping_witness :
    exNodeC3.healthCheckFailures = some exFailures ∧
    exFailures ≠ [] ∧
    Series.num [exNodeC3.id, "timeout"] 2 ∈
      NodeHealthCheckFailuresMetric.add exNodeC3 ∧
    Series.num [exNodeC3.id, "dns"] 1 ∈
      NodeHealthCheckFailuresMetric.add exNodeC3 ∧
    (NodeHealthCheckFailuresMetric.add exNodeC3).length =
      (exFailures.map Failure.error).dedup.length :=
  ⟨rfl, by decide,
   (((nodeHealthCheckFailures_grouping exNodeC3).2 exFailures rfl
      (by decide)).1 ("timeout") 2).mpr (by decide),
   (((nodeHealthCheckFailures_grouping exNodeC3).2 exFailures rfl
      (by decide)).1 ("dns") 1).mpr (by decide),
   ((nodeHealthCheckFailures_grouping exNodeC3).2 exFailures rfl
      (by decide)).2⟩

/-! ### C6: bias and penalty translation tables -/

/-- Membership characterization of the shared table loop: a series is emitted
precisely for the table entries whose raw key is bound in the map. -/
theorem addFromTable_mem (id : String) (m : List (String × Rat)) (s : Series) :
    ∀ tbl : List (String × String),
      s ∈ addFromTable id m tbl ↔
        ∃ kv ∈ tbl, ∃ v, m.lookup kv.1 = some v ∧ s = Series.num [id, kv.2] v
  | [] => by simp [addFromTable]
  | kv :: rest => by
      have ih := addFromTable_mem id m s rest
      cases h : m.lookup kv.1 with
      | none =>
          simp only [addFromTable, h, ih]
          constructor
          · rintro ⟨kv', hkv', v, hv, hs⟩
            exact ⟨kv', List.mem_cons_of_mem _ hkv', v, hv, hs⟩
          · rintro ⟨kv', hkv', v, hv, hs⟩
            rcases List.mem_cons.1 hkv' with h' | h'
            · subst h'
              rw [h] at hv
              cases hv
            · exact ⟨kv', h', v, hv, hs⟩
      | some v =>
          simp only [addFromTable, h, List.mem_cons, ih]
          constructor
          · rintro (hs | ⟨kv', hkv', w, hw, hs⟩)
            · exact ⟨kv, Or.inl rfl, v, h, hs⟩
            · exact ⟨kv', Or.inr hkv', w, hw, hs⟩
          · rintro ⟨kv', hkv' | hkv', w, hw, hs⟩
            · subst hkv'
              rw [h] at hw
              cases hw
              exact Or.inl hs
            · exact Or.inr ⟨kv', hkv', w, hw, hs⟩

/-- Length of the shared table loop's output: one series per table entry whose
raw key is present, so a present value of zero still counts. -/
theorem addFromTable_length (id : String) (m : List (String × Rat)) :
    ∀ tbl : List (String × String),
      (addFromTable id m tbl).length =
        (tbl.filter (fun kv => (m.lookup kv.1).isSome)).length
  | [] => rfl
  | kv :: rest => by
      cases h : m.lookup kv.1 with
      | none =>
          simp [addFromTable, h, List.filter_cons, addFromTable_length id m rest]
      | some v =>
          simp [addFromTable, h, List.filter_cons, addFromTable_length id m rest]

/-- C6: the bias family emits a series exactly for the entries of the fixed
5-entry translation table whose raw key is present in the record's bias map
(one series per such entry, labels `{id, translated-kind}`, value the bound
value — a present zero included), and the penalty family does the same over
its fixed 7-entry table; keys outside the tables never produce a series. -/
theorem nodeBiasPenalty_translation_tables (n : Node) :
    (∀ s, s ∈ NodeBiasMetric.add n ↔
        ∃ kv ∈ biasTable, ∃ v, n.biases.lookup kv.1 = some v ∧
          s = Series.num [n.id, kv.2] v) ∧
    (NodeBiasMetric.add n).length =
      (biasTable.filter (fun kv => (n.biases.lookup kv.1).isSome)).length ∧
    (∀ s, s ∈ NodePenaltyMetric.add n ↔
        ∃ kv ∈ penaltyTable, ∃ v, n.biases.lookup kv.1 = some v ∧
          s = Series.num [n.id, kv.2] v) ∧
    (NodePenaltyMetric.add n).length =
      (penaltyTable.filter (fun kv => (n.biases.lookup kv.1).isSome)).length :=
  ⟨fun s => addFromTable_mem n.id n.biases s biasTable,
   addFromTable_length n.id n.biases biasTable,
   fun s => addFromTable_mem n.id n.biases s penaltyTable,
   addFromTable_length n.id n.biases penaltyTable⟩

/-- The C6 witness record: a zero-valued table key, a key outside both tables,
and one penalty key. -/
def exNodeC6 : Node :=
  { sampleNode with
    biases := [("ageBias", 0), ("unknownKey", 7), ("speedPenalty", 3)] }

/-- Witness for C6: `ageBias = 0` still yields the series `{kind=age} = 0` and
the unknown key yields nothing (the bias family has exactly one series);
`speedPenalty = 3` yields `{kind=speed} = 3`, the penalty family's only
series. -/
theorem nodeBiasPenalty_translation_tables_witness :
    Series.num [exNodeC6.id, "age"] 0 ∈ NodeBiasMetric.add exNodeC6 ∧
    (NodeBiasMetric.add exNodeC6).length = 1 ∧
    Series.num [exNodeC6.id, "speed"] 3 ∈ NodePenaltyMetric.add exNodeC6 ∧
    (NodePenaltyMetric.add exNodeC6).length = 1 :=
  ⟨((nodeBiasPenalty_translation_tables exNodeC6).1 _).mpr
     ⟨("ageBias", "age"), by decide, 0, by decide, by decide⟩,
   by rw [(nodeBiasPenalty_translation_tables exNodeC6).2.1]; decide,
   ((nodeBiasPenalty_translation_tables exNodeC6).2.2.1 _).mpr
     ⟨("speedPenalty", "speed"), by decide, 3, by decide, by decide⟩,
   by rw [(nodeBiasPenalty_translation_tables exNodeC6).2.2.2]; decide⟩

/-! ### C4: timestamp conversion -/

/-- C4 (evidence of the slip): the source's conversion depends on the
process's local timezone, because `strptime` with a literal `Z` yields a naive
datetime and `timestamp()` interprets naive datetimes in local time.  Under
UTC (offset 0) the example string `2023-01-01T00:00:00.000Z` maps to the
specified 1672531200000 ms, but under UTC+01:00 (offset 3600 s) the very same
string maps to 1672527600000 ms — so the conversion is not independent of the
local timezone as specified. -/
theorem strToTimestamp_local_timezone_dependence :
    strToTimestamp ⟨2023, 1, 1, 0, 0, 0, 0⟩ 0 = 1672531200000 ∧
    strToTimestamp ⟨2023, 1, 1, 0, 0, 0, 0⟩ 3600 = 1672527600000 ∧
    (1672527600000 : Rat) ≠ 1672531200000 := by
  have h : epochSeconds ⟨2023, 1, 1, 0, 0, 0, 0⟩ = 1672531200 := by decide
  refine ⟨?_, ?_, by norm_num⟩ <;>
    · unfold strToTimestamp
      rw [h]
      norm_num

/-! ### C7: earnings metric families -/

/-- The C7 counterexample record: `nodeId` present, `payoutStatus` absent, all
optional numeric fields absent. -/
def exEarnMissingStatus : EarningsNode where
  nodeId := "n-0001"
  payoutStatus := none
  filAmount := none
  uptimeCompletion := none
  numRequests := none
  numBytes := none

/-- C7 counterexample: on a record without `payoutStatus`, the payout-status
family does NOT silently emit no series — `node["payoutStatus"]` raises a
`KeyError` that propagates, refuting the claim that all five families skip a
missing field without failing. -/
theorem nodePayout_missing_status_raises :
    NodePayoutInfoMetric.add exEarnMissingStatus =
      Except.error ("KeyError: payoutStatus") ∧
    (NodePayoutInfoMetric.add exEarnMissingStatus).isOk = false :=
  ⟨rfl, rfl⟩

/-- C7 (amended): the four optional-field families (estimated earnings,
uptime completion, retrievals, bandwidth served) each independently check
presence of their one optional field and emit exactly one `{id}`-labeled
series when present and none — without failing — when absent; the
payout-status family reads `payoutStatus` unconditionally, emitting one
series when present and raising a `KeyError` when absent. -/
theorem earnings_optional_field_families (e : EarningsNode) :
    (∀ v, e.filAmount = some v →
        NodeEstimatedEarningsMetric.add e = [Series.num [e.nodeId] v]) ∧
    (e.filAmount = none → NodeEstimatedEarningsMetric.add e = []) ∧
    (∀ v, e.uptimeCompletion = some v →
        NodeUptimeCompletionMetric.add e = [Series.num [e.nodeId] v]) ∧
    (e.uptimeCompletion = none → NodeUptimeCompletionMetric.add e = []) ∧
    (∀ v, e.numRequests = some v →
        NodeRetrievalsMetric.add e = [Series.num [e.nodeId] v]) ∧
    (e.numRequests = none → NodeRetrievalsMetric.add e = []) ∧
    (∀ v, e.numBytes = some v →
        NodeBandwidthServedMetric.add e = [Series.num [e.nodeId] v]) ∧
    (e.numBytes = none → NodeBandwidthServedMetric.add e = []) ∧
    (∀ s, e.payoutStatus = some s →
        NodePayoutInfoMetric.add e =
          Except.ok [Series.info [("id", e.nodeId), ("status", s)]]) ∧
    (e.payoutStatus = none →
        NodePayoutInfoMetric.add e = Except.error ("KeyError: payoutStatus")) :=
  ⟨fun v hv => by simp [NodeEstimatedEarningsMetric.add, hv],
   fun hv => by simp [NodeEstimatedEarningsMetric.add, hv],
   fun v hv => by simp [NodeUptimeCompletionMetric.add, hv],
   fun hv => by simp [NodeUptimeCompletionMetric.add, hv],
   fun v hv => by simp [NodeRetrievalsMetric.add, hv],
   fun hv => by simp [NodeRetrievalsMetric.add, hv],
   fun v hv => by simp [NodeBandwidthServedMetric.add, hv],
   fun hv => by simp [NodeBandwidthServedMetric.add, hv],
   fun s hs => by simp [NodePayoutInfoMetric.add, hs],
   fun hs => by simp [NodePayoutInfoMetric.add, hs]⟩

/-- The C7 witness record with every field present. -/
def exEarnFull : EarningsNode where
  nodeId := "n-0002"
  payoutStatus := some ("valid")
  filAmount := some 5
  uptimeCompletion := some 1
  numRequests := some 10
  numBytes := some 100

/-- Witness for the amended C7: a present optional field yields exactly one
`{id}`-labeled series, and the missing-payout record makes the payout family
fail. -/
theorem earnings_optional_field_families_witness :
    exEarnFull.filAmount = some 5 ∧
    NodeEstimatedEarningsMetric.add exEarnFull =
      [Series.num [exEarnFull.nodeId] 5] ∧
    exEarnMissingStatus.payoutStatus = none ∧
    NodePayoutInfoMetric.add exEarnMissingStatus =
      Except.error ("KeyError: payoutStatus") :=
  ⟨rfl, (earnings_optional_field_families exEarnFull).1 5 rfl, rfl,
   (earnings_optional_field_families
      exEarnMissingStatus).2.2.2.2.2.2.2.2.2 rfl⟩

/-! ### C8: requirements projector -/

/-- The requirements chain succeeds exactly when all seven fields are
present. -/
theorem nodeRequirementsMetrics_ok_iff (r : Requirements) :
    (RequirementsCollector.nodeRequirementsMetrics r).isOk = true ↔
      (r.minCPUCores.isSome = true ∧ r.minMemoryGB.isSome = true ∧
       r.minUploadSpeedMbps.isSome = true ∧ r.minDownloadSpeedMbps.isSome = true ∧
       r.minDiskGB.isSome = true ∧ r.lastVersion.isSome = true ∧
       r.minVersion.isSome = true) := by
  rcases r with ⟨c, m, u, d, k, l, v⟩
  cases c <;> cases m <;> cases u <;> cases d <;> cases k <;> cases l <;> cases v <;>
    simp [RequirementsCollector.nodeRequirementsMetrics,
      NodeRequirementsMinCPUCoresMetric.add, NodeRequirementsMinMemoryMetric.add,
      NodeRequirementsMinUploadSpeedMetric.add,
      NodeRequirementsMinDownloadSpeedMetric.add,
      NodeRequirementsMinDiskMetric.add, NodeRequirementsLastVersionMetric.add,
      NodeRequirementsMinVersionMetric.add, Except.isOk, Except.toBool,
      Bind.bind, Except.bind, Pure.pure, Except.pure]

/-- C8: with all seven fields present the requirements projector returns
exactly one unlabeled series per family (in declaration order); with any one
field missing it fails as a whole — the error propagates and no partial
family list is returned. -/
theorem requirements_all_required (r : Requirements) :
    (∀ a b c d e f g,
        r.minCPUCores = some a → r.minMemoryGB = some b →
        r.minUploadSpeedMbps = some c → r.minDownloadSpeedMbps = some d →
        r.minDiskGB = some e → r.lastVersion = some f → r.minVersion = some g →
        RequirementsCollector.nodeRequirementsMetrics r =
          Except.ok [[Series.num [] a], [Series.num [] b], [Series.num [] c],
                     [Series.num [] d], [Series.num [] e], [Series.num [] f],
                     [Series.num [] g]]) ∧
    ((r.minCPUCores = none ∨ r.minMemoryGB = none ∨ r.minUploadSpeedMbps = none ∨
      r.minDownloadSpeedMbps = none ∨ r.minDiskGB = none ∨ r.lastVersion = none ∨
      r.minVersion = none) →
      (RequirementsCollector.nodeRequirementsMetrics r).isOk = false) := by
  constructor
  · intro a b c d e f g h1 h2 h3 h4 h5 h6 h7
    simp [RequirementsCollector.nodeRequirementsMetrics, h1, h2, h3, h4, h5, h6, h7,
      NodeRequirementsMinCPUCoresMetric.add, NodeRequirementsMinMemoryMetric.add,
      NodeRequirementsMinUploadSpeedMetric.add,
      NodeRequirementsMinDownloadSpeedMetric.add,
      NodeRequirementsMinDiskMetric.add, NodeRequirementsLastVersionMetric.add,
      NodeRequirementsMinVersionMetric.add, Bind.bind, Except.bind,
      Pure.pure, Except.pure]
  · intro h
    rcases hb : (RequirementsCollector.nodeRequirementsMetrics r).isOk with _ | _
    · rfl
    · exfalso
      have hall := (nodeRequirementsMetrics_ok_iff r).1 hb
      rcases h with h | h | h | h | h | h | h <;> simp [h] at hall

/-- The C8 witness record with all seven fields present. -/
def exReq : Requirements where
  minCPUCores := some 6
  minMemoryGB := some 10
  minUploadSpeedMbps := some 100
  minDownloadSpeedMbps := some 200
  minDiskGB := some 4000
  lastVersion := some 1041
  minVersion := some 1040

/-- Witness for C8 at a fully populated requirements record. -/
theorem requirements_all_required_witness :
    exReq.minCPUCores = some 6 ∧
    RequirementsCollector.nodeRequirementsMetrics exReq =
      Except.ok [[Series.num [] 6], [Series.num [] 10], [Series.num [] 100],
                 [Series.num [] 200], [Series.num [] 4000], [Series.num [] 1041],
                 [Series.num [] 1040]] :=
  ⟨rfl, (requirements_all_required exReq).1 6 10 100 200 4000 1041 1040
     rfl rfl rfl rfl rfl rfl rfl⟩

/-! ### C5 and C9: snapshot assembly -/

/-- The record loop in accumulator-passing form: the info family collects the
info series of exactly the records passing the id filter, and the found-set
collects exactly their ids, both in fetch order. -/
theorem foldl_statsStep_info (tz : Int) (nodeIds : List String) :
    ∀ (stats : List Node) (acc : Families × List String),
      ((stats.foldl (statsStep tz nodeIds) acc).1.info =
        acc.1.info ++
          ((stats.filter (fun n => decide (nodeIds = [] ∨ n.id ∈ nodeIds))).map
            NodeInfoMetric.add).flatten) ∧
      ((stats.foldl (statsStep tz nodeIds) acc).2 =
        acc.2 ++ (stats.filter
          (fun n => decide (nodeIds = [] ∨ n.id ∈ nodeIds))).map Node.id)
  | [], acc => by simp
  | n :: rest, acc => by
      have ih := foldl_statsStep_info tz nodeIds rest
      by_cases h : nodeIds = [] ∨ n.id ∈ nodeIds
      · have hstep : statsStep tz nodeIds acc n =
            (addNode tz acc.1 n, acc.2 ++ [n.id]) := by
          unfold statsStep
          exact if_neg (fun hc => hc.2 (h.resolve_left hc.1))
        rw [List.foldl_cons, hstep]
        constructor
        · rw [(ih _).1]
          simp [addNode, List.filter_cons, h]
        · rw [(ih _).2]
          simp [List.filter_cons, h]
      · have hstep : statsStep tz nodeIds acc n = acc := by
          unfold statsStep
          exact if_pos (not_or.1 h)
        rw [List.foldl_cons, hstep]
        constructor
        · rw [(ih _).1]
          simp [List.filter_cons, h]
        · rw [(ih _).2]
          simp [List.filter_cons, h]

/-- C5: snapshot assembly projects a record exactly when the configured id set
is empty or contains the record's id (witnessed in the info family, to which
every projected record contributes its info series in fetch order), and after
the full pass emits exactly one synthesized info series — labels id, id_short
and state only, with state fixed to `inactive` — for each configured id not
among the projected records' ids.  In particular, with allow-list `A, B, C`
and a fetched list containing only `A`, exactly one inactive series for `B`
and one for `C` are appended. -/
theorem statsSnapshot_filter_and_inactive :
    (∀ (tz : Int) (nodeIds : List String) (stats : List Node),
      (StatsCollector.nodeMetricsFromStats tz nodeIds stats).info =
        ((stats.filter (fun n => decide (nodeIds = [] ∨ n.id ∈ nodeIds))).map
            NodeInfoMetric.add).flatten ++
          (nodeIds.dedup.filter (fun i =>
              decide (i ∉ (stats.filter (fun n =>
                decide (nodeIds = [] ∨ n.id ∈ nodeIds))).map Node.id))).map
            (fun i => Series.info
              [("id", i), ("id_short", i.take 8), ("state", "inactive")])) ∧
    (StatsCollector.nodeMetricsFromStats 0 ["A", "B", "C"]
        [{ sampleNode with id := "A" }]).info =
      NodeInfoMetric.add { sampleNode with id := "A" } ++
        [Series.info [("id", "B"), ("id_short", "B"), ("state", "inactive")],
         Series.info [("id", "C"), ("id_short", "C"), ("state", "inactive")]] := by
  constructor
  · intro tz nodeIds stats
    unfold StatsCollector.nodeMetricsFromStats
    dsimp only
    rw [(foldl_statsStep_info tz nodeIds stats (emptyFamilies, [])).1,
      (foldl_statsStep_info tz nodeIds stats (emptyFamilies, [])).2]
    simp [emptyFamilies, NodeInfoMetric.addInactive, idShort]
  · decide

/-- C9: the stats snapshot assembly is deterministic and carries no hidden
state across scrapes: two scrapes over the same configured id set and the same
fetched record list produce identical family structures — same families, same
series, same order.  (The embedding reflects that `_node_metrics_from_stats`
constructs its metric families and found-set afresh on every call.) -/
theorem statsSnapshot_deterministic :
    ∀ (tz : Int) (nodeIds : List String) (stats : List Node),
      (StatsCollector.collectTwice tz nodeIds stats).1 =
        (StatsCollector.collectTwice tz nodeIds stats).2 :=
  fun _ _ _ => rfl

/-! ### C10: empty sub-records behave as absent -/

/-- C10: a present-but-empty (falsy) `speedtest` dict is treated exactly like
an absent one — no speedtest-derived series and no speedtest labels on the
info series — and a present-but-empty `ttfbStats` dict is treated exactly
like an absent one — no quantile and no request-outcome series; the presence
tests are truthiness tests. -/
theorem empty_subrecords_behave_as_absent :
    ∀ n : Node,
      (NodeInfoMetric.add { n with speedtest := SpeedtestField.empty } =
        NodeInfoMetric.add { n with speedtest := SpeedtestField.absent }) ∧
      (NodeSpeedtestUploadBandwidthMetric.add
        { n with speedtest := SpeedtestField.empty } = []) ∧
      (NodeSpeedtestDownloadBandwidthMetric.add
        { n with speedtest := SpeedtestField.empty } = []) ∧
      (NodeSpeedtestPingLatencyMetric.add
        { n with speedtest := SpeedtestField.empty } = []) ∧
      (NodeSpeedtestUploadBandwidthMetric.add
        { n with speedtest := SpeedtestField.absent } = []) ∧
      (NodeSpeedtestDownloadBandwidthMetric.add
        { n with speedtest := SpeedtestField.absent } = []) ∧
      (NodeSpeedtestPingLatencyMetric.add
        { n with speedtest := SpeedtestField.absent } = []) ∧
      (NodeInfoMetric.add { n with speedtest := SpeedtestField.empty } =
        [Series.info
          [("id", n.id), ("id_short", idShort n.id), ("state", n.state),
           ("core", boolToStr n.core), ("ip_address", n.ipAddress),
           ("sunrise", boolToStr n.sunrise), ("cassini", boolToStr n.cassini),
           ("geoloc_region", n.geoloc.region), ("geoloc_city", n.geoloc.city),
           ("geoloc_country", n.geoloc.country),
           ("geoloc_country_code", n.geoloc.countryCode)]]) ∧
      (NodeResponseDurationMetric.add { n with ttfbStats := some [] } =
        NodeResponseDurationMetric.add { n with ttfbStats := none }) ∧
      (NodeRequestsMetric.add { n with ttfbStats := some [] } =
        NodeRequestsMetric.add { n with ttfbStats := none }) ∧
      (NodeResponseDurationMetric.add { n with ttfbStats := some [] } = []) ∧
      (NodeRequestsMetric.add { n with ttfbStats := some [] } = []) :=
  fun _ => ⟨rfl, rfl, rfl, rfl, rfl, rfl, rfl, rfl, rfl, rfl, rfl, rfl⟩

end Saturn
